import Mathlib

/-!
Verification of the token-generation runtime core of onnxruntime-genai
(headers `src/generators.h` and `src/logits_processor.h`).

The repository snapshot contains only the two headers: declarations, the
inline `GeneratorParams::Clone`, and the `DeviceType` enumeration are taken
directly from the source; the bodies of the declared member functions
(`Generator::ComputeLogits`, `Generator::GenerateNextToken`,
`GeneratorParams::TryGraphCapture`, `GuidanceLogitsProcessor::ProcessLogits`,
`GetOrtGlobals`, `Shutdown`, ...) live in translation units that are not part
of the snapshot, so those operations are modelled from the specification, as
marked in each doc comment.
-/

namespace Generators

/-- Device backends, translated from the `DeviceType` enumeration in
`src/generators.h` lines 55-59: exactly the three constructors `CPU`,
`CUDA`, `DML`. -/
inductive DeviceType where
  | CPU
  | CUDA
  | DML
deriving DecidableEq, Fintype

/-- `Config::Search` is declared in `config.h`, which is not part of the
snapshot; `generators.h` only reads its `num_beams` field (in
`BatchBeamSize`), so the model keeps that field. -/
structure ConfigSearch where
  num_beams : Int := 1
deriving DecidableEq

/-- Opaque tensor handle: `std::shared_ptr<Tensor>` values are modelled as
reference identities. -/
structure Tensor where
  id : Nat := 0
deriving DecidableEq

/-- Named extra model input, from `GeneratorParams::Input` in
`src/generators.h` lines 140-143. -/
structure Input where
  name : String := ""
  tensor : Tensor := {}
deriving DecidableEq

/-- `GeneratorParams::Whisper`, from `src/generators.h` lines 130-132. -/
structure Whisper where
  input_features : Tensor := {}
deriving DecidableEq

/-- The `std::variant<Whisper>` of modality-specific inputs
(`src/generators.h` line 134). -/
inductive InputsVariant where
  | whisper (w : Whisper)
deriving DecidableEq

/-- Generation parameters, translated field-for-field from `GeneratorParams`
in `src/generators.h` lines 63-156.  C++ member initializers become Lean
default values; pointer/handle members (`cuda_stream`, `external_owner_`,
`config_`) are modelled as numeric reference identities. -/
structure GeneratorParams where
  search : ConfigSearch := {}
  pad_token_id : Int := 0
  eos_token_id : Int := 0
  vocab_size : Int := 0
  context_length : Int := 0
  batch_size : Int := 1
  max_batch_size : Int := 0
  use_cuda_graph : Bool := false
  sequence_length : Int := 0
  hidden_size : Int := 0
  device_type : DeviceType := DeviceType.CPU
  cuda_stream : Nat := 0
  input_ids : List Int := []
  inputs : InputsVariant := InputsVariant.whisper {}
  input_ids_owner : List Int := []
  external_owner_ : Option Nat := none
  extra_inputs : List Input := []
  is_cuda_graph_enabled_ : Bool := false
  config_ : Option Nat := none
deriving DecidableEq

instance : Inhabited GeneratorParams := ⟨{}⟩

/-- `GeneratorParams::BatchBeamSize`, from `src/generators.h` line 105. -/
def GeneratorParams.BatchBeamSize (p : GeneratorParams) : Int :=
  p.search.num_beams * p.batch_size

/-- `GeneratorParams::Clone`, translated from `src/generators.h` lines 67-90:
every field of the new object is copied from `this`, in source order. -/
def GeneratorParams.Clone (p : GeneratorParams) : GeneratorParams :=
  { search := p.search
    pad_token_id := p.pad_token_id
    eos_token_id := p.eos_token_id
    vocab_size := p.vocab_size
    context_length := p.context_length
    batch_size := p.batch_size
    max_batch_size := p.max_batch_size
    use_cuda_graph := p.use_cuda_graph
    sequence_length := p.sequence_length
    hidden_size := p.hidden_size
    device_type := p.device_type
    cuda_stream := p.cuda_stream
    input_ids := p.input_ids
    inputs := p.inputs
    input_ids_owner := p.input_ids_owner
    external_owner_ := p.external_owner_
    extra_inputs := p.extra_inputs
    is_cuda_graph_enabled_ := p.is_cuda_graph_enabled_
    config_ := p.config_ }

/-- Error taxonomy of the spec (section 7). -/
inductive GenError where
  | InvalidState
  | InvalidArgument
  | OutOfMemory
  | SessionTerminated
deriving DecidableEq

/-- Modelled from the spec: the `Generator` state observable through the
operations of `src/generators.h` lines 158-171.  The decoding `State` and
`Search` members are opaque to the core; what the state machine tracks is the
device-resident token sequence and the `computed_logits_` flag (line 170:
"Set to true in ComputeLogits() and false after appending a token to ensure a
1 to 1 call ratio"). -/
structure GenState where
  tokens : List Int
  computed_logits : Bool
deriving DecidableEq

/-- Operations of the generator state machine (spec section 4.3), over the
two-call interface exposed by `src/generators.h` lines 161-163. -/
inductive GenOp where
  | appendTokens (ids : List Int)
  | computeLogits
  | generateNextToken
deriving DecidableEq

/-- Modelled from the spec: the bodies of `Generator::ComputeLogits` and
`Generator::GenerateNextToken` (declared at `src/generators.h` lines 162-163)
are not under `src/`.  Spec section 4.3: `AppendTokens` fails with
InvalidState while `computed_logits = true`; `ComputeLogits` sets the flag
and is rejected when the flag is already set (the 1:1 ratio of the line-170
comment); `GenerateNextToken` selects a token via the search policy, appends
it, and clears the flag.  The search policy is an external collaborator,
passed as the function `select`. -/
def step (select : GenState → Int) (s : GenState) : GenOp → Except GenError GenState
  | GenOp.appendTokens ids =>
      if s.computed_logits then Except.error GenError.InvalidState
      else Except.ok { s with tokens := s.tokens ++ ids }
  | GenOp.computeLogits =>
      if s.computed_logits then Except.error GenError.InvalidState
      else Except.ok { s with computed_logits := true }
  | GenOp.generateNextToken =>
      if s.computed_logits then
        Except.ok { tokens := s.tokens ++ [select s], computed_logits := false }
      else Except.error GenError.InvalidState

/-- Run a call sequence, returning the trace of post-states; any rejected
call aborts the run. -/
def run (select : GenState → Int) (s : GenState) :
    List GenOp → Except GenError (List GenState)
  | [] => Except.ok []
  | op :: ops =>
    match step select s op with
    | Except.error e => Except.error e
    | Except.ok s1 =>
      match run select s1 ops with
      | Except.error e => Except.error e
      | Except.ok rest => Except.ok (s1 :: rest)

/-- Number of true-to-false transitions of the `computed_logits` flag along a
state trace, starting from flag value `prev`. -/
def countFalls (prev : Bool) : List GenState → Nat
  | [] => 0
  | s :: rest =>
      (if prev && !s.computed_logits then 1 else 0) + countFalls s.computed_logits rest

/-- Recognizer for the `generateNextToken` operation. -/
def isGenerateNext : GenOp → Bool
  | GenOp.generateNextToken => true
  | _ => false

theorem countFalls_run (select : GenState → Int) :
    ∀ (ops : List GenOp) (s : GenState) (trace : List GenState),
      run select s ops = Except.ok trace →
      countFalls s.computed_logits trace = ops.countP isGenerateNext := by
  intro ops
  induction ops with
  | nil =>
    intro s trace h
    simp [run] at h
    subst h
    simp [countFalls]
  | cons op ops ih =>
    intro s trace h
    rcases op with ids | _ | _ <;>
      rcases hflag : s.computed_logits <;>
      simp [run, step, hflag] at h <;>
      rcases hrun : run select _ ops with e | rest <;>
      rw [hrun] at h <;> simp at h
    · rcases h with ⟨rfl⟩
      have := ih _ _ hrun
      simp [countFalls, hflag, List.countP_cons, isGenerateNext] at this ⊢
      simpa using this
    · rcases h with ⟨rfl⟩
      have := ih _ _ hrun
      simp [countFalls, hflag, List.countP_cons, isGenerateNext] at this ⊢
      simpa using this
    · rcases h with ⟨rfl⟩
      have := ih _ _ hrun
      simp [countFalls, List.countP_cons, isGenerateNext] at this ⊢
      omega

/-- C1: for every sequence of state-machine calls that runs successfully, the
`computed_logits` flag falls from true to false exactly once per successful
`GenerateNextToken` call, and a second logits computation without an
intervening token commit (a `ComputeLogits` call while the flag is already
set) is rejected with InvalidState. -/
theorem c1_computed_logits_alternation (select : GenState → Int)
    (ops : List GenOp) (s : GenState) (trace : List GenState) (sBad : GenState)
    (h : run select s ops = Except.ok trace)
    (hb : sBad.computed_logits = true) :
    countFalls s.computed_logits trace = ops.countP isGenerateNext ∧
    step select sBad GenOp.computeLogits = Except.error GenError.InvalidState := by
  refine ⟨countFalls_run select ops s trace h, ?_⟩
  simp [step, hb]

/-- C1 witness: a concrete successful run (append, compute, generate, compute,
generate) whose trace shows exactly two flag falls, and a concrete rejected
double computation. -/
theorem c1_computed_logits_alternation_witness :
    (run (fun _ => 7) { tokens := [], computed_logits := false }
        [GenOp.appendTokens [5], GenOp.computeLogits, GenOp.generateNextToken,
         GenOp.computeLogits, GenOp.generateNextToken] =
      Except.ok
        [{ tokens := [5], computed_logits := false },
         { tokens := [5], computed_logits := true },
         { tokens := [5, 7], computed_logits := false },
         { tokens := [5, 7], computed_logits := true },
         { tokens := [5, 7, 7], computed_logits := false }]) ∧
    ({ tokens := [5], computed_logits := true } : GenState).computed_logits = true ∧
    (countFalls false
        [{ tokens := [5], computed_logits := false },
         { tokens := [5], computed_logits := true },
         { tokens := [5, 7], computed_logits := false },
         { tokens := [5, 7], computed_logits := true },
         { tokens := [5, 7, 7], computed_logits := false }] =
       ([GenOp.appendTokens [5], GenOp.computeLogits, GenOp.generateNextToken,
         GenOp.computeLogits, GenOp.generateNextToken] : List GenOp).countP isGenerateNext ∧
     step (fun _ => 7) { tokens := [5], computed_logits := true } GenOp.computeLogits =
       Except.error GenError.InvalidState) := by
  refine ⟨rfl, rfl, ?_⟩
  exact c1_computed_logits_alternation (fun _ => 7)
    [GenOp.appendTokens [5], GenOp.computeLogits, GenOp.generateNextToken,
     GenOp.computeLogits, GenOp.generateNextToken]
    { tokens := [], computed_logits := false }
    [{ tokens := [5], computed_logits := false },
     { tokens := [5], computed_logits := true },
     { tokens := [5, 7], computed_logits := false },
     { tokens := [5, 7], computed_logits := true },
     { tokens := [5, 7, 7], computed_logits := false }]
    { tokens := [5], computed_logits := true }
    rfl rfl

/-- Observable events of one `GenerateNextToken` step (spec section 4.3).
`pipelineRun` carries the buffer the Logits Processing Pipeline observes. -/
inductive StepEvent where
  | engineInvoked (positions : List Int)
  | pipelineRun (buffer : List Int)
  | tokenSelected (t : Int)
  | tokenAppended (t : Int)
  | flagCleared
deriving DecidableEq

/-- Recognizer for pipeline invocations in an event trace. -/
def isPipelineRun : StepEvent → Bool
  | StepEvent.pipelineRun _ => true
  | _ => false

/-- Per-step generator state for the single-call interface: the committed
tokens, the current (possibly processed) logits buffer, and the
`computed_logits_` flag. -/
structure StepState where
  tokens : List Int
  logits : List Int
  computed_logits : Bool
deriving DecidableEq

/-- Modelled from the spec: the body of `Generator::GenerateNextToken`
(declared at `src/generators.h` line 163) is not under `src/`.  Spec section
4.3, single-call style: (1) if logits have not yet been computed this step,
invoke the external execution engine on the current sequence positions, run
the Logits Processing Pipeline over that raw buffer, and set
`computed_logits = true`; (2) let the search policy select from the possibly
masked logits; (3) append the selected token; (4) clear `computed_logits`.
The engine, pipeline and search policy are external collaborators, passed as
functions; the returned event list records what happened, in order. -/
def generateNextTokenStep (engine : List Int → List Int)
    (pipeline : List Int → List Int) (search : List Int → Int)
    (s : StepState) : StepState × List StepEvent :=
  let computePhase : StepState × List StepEvent :=
    if s.computed_logits then (s, [])
    else
      let raw := engine s.tokens
      ({ s with logits := pipeline raw, computed_logits := true },
       [StepEvent.engineInvoked s.tokens, StepEvent.pipelineRun raw])
  let s1 := computePhase.1
  let t := search s1.logits
  ({ tokens := s1.tokens ++ [t], logits := s1.logits, computed_logits := false },
   computePhase.2 ++ [StepEvent.tokenSelected t, StepEvent.tokenAppended t, StepEvent.flagCleared])

/-- C2: starting a step with `computed_logits = false`, `GenerateNextToken`
invokes the engine, runs the pipeline exactly once over the raw engine
output, selects and appends the token chosen by the search policy from the
processed logits, and clears the flag — in exactly that order; and when the
logits of the step were already computed (flag set at entry), the pipeline is
not run again, so a buffer is never double-processed. -/
theorem c2_generate_next_token_order (engine : List Int → List Int)
    (pipeline : List Int → List Int) (search : List Int → Int)
    (s sPre : StepState)
    (hs : s.computed_logits = false) (hp : sPre.computed_logits = true) :
    generateNextTokenStep engine pipeline search s =
      ({ tokens := s.tokens ++ [search (pipeline (engine s.tokens))],
         logits := pipeline (engine s.tokens),
         computed_logits := false },
       [StepEvent.engineInvoked s.tokens,
        StepEvent.pipelineRun (engine s.tokens),
        StepEvent.tokenSelected (search (pipeline (engine s.tokens))),
        StepEvent.tokenAppended (search (pipeline (engine s.tokens))),
        StepEvent.flagCleared]) ∧
    ((generateNextTokenStep engine pipeline search s).2.countP isPipelineRun = 1) ∧
    ((generateNextTokenStep engine pipeline search sPre).2.countP isPipelineRun = 0) := by
  refine ⟨?_, ?_, ?_⟩ <;>
    simp [generateNextTokenStep, hs, hp, isPipelineRun, List.countP_cons]

/-- C2 witness: a concrete step from an uncomputed state (engine returns the
scores [1, 9], pipeline negates the first score, search takes the argmax
index 1), alongside a concrete already-computed state that triggers no second
pipeline run. -/
theorem c2_generate_next_token_order_witness :
    ({ tokens := [3], logits := [], computed_logits := false } : StepState).computed_logits = false ∧
    ({ tokens := [3], logits := [1, 9], computed_logits := true } : StepState).computed_logits = true ∧
    (generateNextTokenStep (fun _ => [1, 9]) (fun l => l.map (· - 1)) (fun l => l.getD 1 0)
        { tokens := [3], logits := [], computed_logits := false } =
      ({ tokens := [3, 8], logits := [0, 8], computed_logits := false },
       [StepEvent.engineInvoked [3], StepEvent.pipelineRun [1, 9],
        StepEvent.tokenSelected 8, StepEvent.tokenAppended 8, StepEvent.flagCleared]) ∧
     (generateNextTokenStep (fun _ => [1, 9]) (fun l => l.map (· - 1)) (fun l => l.getD 1 0)
        { tokens := [3], logits := [], computed_logits := false }).2.countP isPipelineRun = 1 ∧
     (generateNextTokenStep (fun _ => [1, 9]) (fun l => l.map (· - 1)) (fun l => l.getD 1 0)
        { tokens := [3], logits := [1, 9], computed_logits := true }).2.countP isPipelineRun = 0) := by
  refine ⟨rfl, rfl, ?_⟩
  exact c2_generate_next_token_order (fun _ => [1, 9]) (fun l => l.map (· - 1))
    (fun l => l.getD 1 0)
    { tokens := [3], logits := [], computed_logits := false }
    { tokens := [3], logits := [1, 9], computed_logits := true }
    rfl rfl

/-- Constraint state of the guidance logits processor: the tokens committed
so far (`GuidanceLogitsProcessor` keys one grammar/constraint-engine instance
per row; per-row state is the committed token stream, spec section 4.4). -/
structure GuidanceState where
  committed : List Int
deriving DecidableEq

/-- Modelled from the spec: the body of
`GuidanceLogitsProcessor::ComputeMask` (declared at `src/logits_processor.h`
line 55) is not under `src/`.  The external grammar/constraint engine is the
black-box function `grammar`; the mask is its value on the committed token
stream — one validity bit per vocabulary entry. -/
def ComputeMask (grammar : List Int → List Bool) (st : GuidanceState) : List Bool :=
  grammar st.committed

/-- Modelled from the spec: the body of
`GuidanceLogitsProcessor::CommitTokens` (declared at `src/logits_processor.h`
line 48) is not under `src/`.  Spec section 4.4: advances the constraint
state by the tokens actually selected. -/
def CommitTokens (st : GuidanceState) (toks : List Int) : GuidanceState :=
  { committed := st.committed ++ toks }

/-- Scores after masking.  Spec section 4.4: a masked-out score is replaced by
"negative infinity (or equivalent minimum representable value)", modelled as
the bottom element of `WithBot Int`; unmasked scores are untouched. -/
def mergeMask (mask : List Bool) (logits : List Int) : List (WithBot Int) :=
  List.zipWith (fun b x => if b then ((x : Int) : WithBot Int) else ⊥) mask logits

/-- Modelled from the spec: the body of
`GuidanceLogitsProcessor::ProcessLogits` (declared at `src/logits_processor.h`
line 47) is not under `src/`.  It merges the current validity mask into the
logits buffer and leaves the constraint state untouched (only `CommitTokens`
advances it). -/
def ProcessLogits (grammar : List Int → List Bool) (st : GuidanceState)
    (logits : List Int) : GuidanceState × List (WithBot Int) :=
  (st, mergeMask (ComputeMask grammar st) logits)

/-- Index of the highest masked score (first occurrence wins), the selection
an argmax search policy performs on the masked buffer. -/
def argmaxIdx (l : List (WithBot Int)) : Option Nat :=
  (List.range l.length).argmax fun i => l.getD i ⊥

theorem getD_mergeMask :
    ∀ (mask : List Bool) (logits : List Int) (i : Nat),
      i < mask.length → i < logits.length →
      (mergeMask mask logits).getD i ⊥ =
        if mask.getD i false then ((logits.getD i 0 : Int) : WithBot Int) else ⊥ := by
  intro mask
  induction mask with
  | nil => intro logits i h _; simp at h
  | cons b bs ih =>
    intro logits i hm hl
    cases logits with
    | nil => simp at hl
    | cons x xs =>
      cases i with
      | zero => simp [mergeMask]
      | succ j =>
        simp only [mergeMask, List.zipWith_cons_cons, List.getD_cons_succ]
        exact ih xs j (by simpa using hm) (by simpa using hl)

theorem length_mergeMask (mask : List Bool) (logits : List Int) :
    (mergeMask mask logits).length = min mask.length logits.length := by
  simp [mergeMask]

/-- C3: merging a validity mask into a logits buffer replaces every masked-out
score by the bottom value, leaves every allowed score untouched, never
changes the constraint state (so no token's allowed status changes without an
intervening `CommitTokens`), and — provided some token is allowed — the
argmax over the masked buffer always lands on an allowed token. -/
theorem c3_mask_merge (grammar : List Int → List Bool) (st : GuidanceState)
    (logits : List Int) (j k m : Nat)
    (hlen : (ComputeMask grammar st).length = logits.length)
    (hk : k < logits.length)
    (hkm : (ComputeMask grammar st).getD k false = true)
    (hm : m < logits.length)
    (hmm : (ComputeMask grammar st).getD m false = false)
    (hj : argmaxIdx (ProcessLogits grammar st logits).2 = some j) :
    (ProcessLogits grammar st logits).2.getD k ⊥ = ((logits.getD k 0 : Int) : WithBot Int) ∧
    (ProcessLogits grammar st logits).2.getD m ⊥ = ⊥ ∧
    (ProcessLogits grammar st logits).1 = st ∧
    ComputeMask grammar (ProcessLogits grammar st logits).1 = ComputeMask grammar st ∧
    (ComputeMask grammar st).getD j false = true := by
  have hmerge := length_mergeMask (ComputeMask grammar st) logits
  rw [hlen, Nat.min_self] at hmerge
  have hgk := getD_mergeMask (ComputeMask grammar st) logits k (hlen ▸ hk) hk
  have hgm := getD_mergeMask (ComputeMask grammar st) logits m (hlen ▸ hm) hm
  rw [hkm, if_pos rfl] at hgk
  rw [hmm] at hgm
  simp only [Bool.false_eq_true, if_false] at hgm
  refine ⟨hgk, hgm, rfl, rfl, ?_⟩
  -- argmax lands on an allowed token
  have hjmem : j ∈ (List.range (mergeMask (ComputeMask grammar st) logits).length).argmax
      (fun i => (mergeMask (ComputeMask grammar st) logits).getD i ⊥) := hj
  have hjrange : j ∈ List.range (mergeMask (ComputeMask grammar st) logits).length :=
    List.argmax_mem hjmem
  have hjlt : j < logits.length := by
    have := List.mem_range.mp hjrange
    omega
  have hkmem : k ∈ List.range (mergeMask (ComputeMask grammar st) logits).length := by
    rw [hmerge]; exact List.mem_range.mpr hk
  have hle : (mergeMask (ComputeMask grammar st) logits).getD k ⊥ ≤
      (mergeMask (ComputeMask grammar st) logits).getD j ⊥ :=
    List.le_of_mem_argmax hkmem hjmem
  have hgj := getD_mergeMask (ComputeMask grammar st) logits j (hlen ▸ hjlt) hjlt
  by_contra hfalse
  have hjm : (ComputeMask grammar st).getD j false = false := by
    cases hcase : (ComputeMask grammar st).getD j false with
    | true => exact absurd hcase hfalse
    | false => rfl
  rw [hjm] at hgj
  simp only [Bool.false_eq_true, if_false] at hgj
  rw [hgk, hgj] at hle
  exact absurd (le_bot_iff.mp hle) (by simp)

/-- C3 witness: grammar allowing tokens 0 and 2 of a 3-token vocabulary, raw
scores [5, 9, 3]: the merged buffer keeps 5 and 3, bottoms out index 1 (the
disallowed top raw score), and the argmax lands on allowed index 0. -/
theorem c3_mask_merge_witness :
    (ComputeMask (fun _ => [true, false, true]) ⟨[]⟩).length = ([5, 9, 3] : List Int).length ∧
    (1 : Nat) < ([5, 9, 3] : List Int).length ∧
    (ComputeMask (fun _ => [true, false, true]) ⟨[]⟩).getD 0 false = true ∧
    (ComputeMask (fun _ => [true, false, true]) ⟨[]⟩).getD 1 false = false ∧
    argmaxIdx (ProcessLogits (fun _ => [true, false, true]) ⟨[]⟩ [5, 9, 3]).2 = some 0 ∧
    ((ProcessLogits (fun _ => [true, false, true]) ⟨[]⟩ [5, 9, 3]).2.getD 0 ⊥ =
        ((5 : Int) : WithBot Int) ∧
      (ProcessLogits (fun _ => [true, false, true]) ⟨[]⟩ [5, 9, 3]).2.getD 1 ⊥ = ⊥ ∧
      (ProcessLogits (fun _ => [true, false, true]) ⟨[]⟩ [5, 9, 3]).1 = (⟨[]⟩ : GuidanceState) ∧
      ComputeMask (fun _ => [true, false, true])
          (ProcessLogits (fun _ => [true, false, true]) ⟨[]⟩ [5, 9, 3]).1 =
        ComputeMask (fun _ => [true, false, true]) ⟨[]⟩ ∧
      (ComputeMask (fun _ => [true, false, true]) ⟨[]⟩).getD 0 false = true) := by
  refine ⟨rfl, by decide, rfl, rfl, by decide, ?_⟩
  exact c3_mask_merge (fun _ => [true, false, true]) ⟨[]⟩ [5, 9, 3] 0 0 1
    rfl (by decide) rfl (by decide) rfl (by decide)

/-- The pending asynchronous mask computation
(`GuidanceLogitsProcessor::mask_future_`, `src/logits_processor.h` line 68):
a `std::future` obtained from dispatching `ComputeMask` as a task.  The task
closes over the committed token stream at dispatch time; that captured
argument is the future's only content. -/
structure MaskFuture where
  captured_committed : List Int
deriving DecidableEq

/-- Modelled from the spec: dispatch of the asynchronous mask-computation
task (spec section 4.4, "Mask computation is dispatched as an asynchronous
task").  The future records the committed tokens at submission. -/
def submitMaskTask (st : GuidanceState) : MaskFuture :=
  { captured_committed := st.committed }

/-- Modelled from the spec: the body of `GuidanceLogitsProcessor::GetMask`
(declared at `src/logits_processor.h` line 50) is not under `src/`.  It
awaits `mask_future_` and returns its value; `timing` is how long the
asynchronous task ran before being awaited, and `cur` is the processor state
at await time — neither can influence the value, which is the pure function
`grammar` applied to the tokens captured at dispatch. -/
def GetMask (grammar : List Int → List Bool) (fut : MaskFuture)
    (timing : Nat) (cur : GuidanceState) : List Bool :=
  grammar fut.captured_committed

/-- C4: the validity mask is a deterministic function of grammar and the
committed tokens at dispatch: awaiting the asynchronous task yields the same
mask for any two execution timings, that mask equals the synchronous
`ComputeMask` of the dispatch-time state, regardless of tokens committed
while the task was in flight, and resubmitting after a commit again agrees
with the synchronous computation. -/
theorem c4_mask_determinism (grammar : List Int → List Bool)
    (st : GuidanceState) (t1 t2 : Nat) (laterToks : List Int) :
    GetMask grammar (submitMaskTask st) t1 (CommitTokens st laterToks) =
      GetMask grammar (submitMaskTask st) t2 st ∧
    GetMask grammar (submitMaskTask st) t1 (CommitTokens st laterToks) =
      ComputeMask grammar st ∧
    GetMask grammar (submitMaskTask (CommitTokens st laterToks)) t2 (CommitTokens st laterToks) =
      ComputeMask grammar (CommitTokens st laterToks) :=
  ⟨rfl, rfl, rfl⟩

/-- C5 counterexample: the claim needs a fourth selectable backend (WebGPU)
distinct from CPU, CUDA and DirectML, but the `DeviceType` enumeration of
`src/generators.h` lines 55-59 has no value beyond those three. -/
theorem c5_counterexample :
    ¬ ∃ d : DeviceType,
        d ≠ DeviceType.CPU ∧ d ≠ DeviceType.CUDA ∧ d ≠ DeviceType.DML := by
  decide

/-- C5 (amended): the device type recorded in Generation Parameters ranges
over exactly three backends — CPU, CUDA and DirectML — and each of the three
is selectable per Generator via `GeneratorParams.device_type`; WebGPU is not
among them. -/
theorem c5_device_types :
    Fintype.card DeviceType = 3 ∧
    (∀ d : DeviceType, d = DeviceType.CPU ∨ d = DeviceType.CUDA ∨ d = DeviceType.DML) ∧
    (∀ d : DeviceType, ∃ p : GeneratorParams, p.device_type = d) := by
  refine ⟨by decide, by decide, fun d => ⟨{ device_type := d }, rfl⟩⟩

/-- Modelled from the spec: the body of `GeneratorParams::TryGraphCapture`
(declared at `src/generators.h` line 148) is not under `src/`.  Spec section
4.2: when the backend supports capture (the `is_cuda_graph_enabled_` flag),
it enables the replay-optimized path and records the captured maximum batch
size (`max_batch_size`, `src/generators.h` line 101); otherwise it leaves the
parameters on the normal path, silently. -/
def GeneratorParams.TryGraphCapture (p : GeneratorParams) (max_bs : Int) : GeneratorParams :=
  if p.is_cuda_graph_enabled_ then
    { p with use_cuda_graph := true, max_batch_size := max_bs }
  else p

/-- Modelled from the spec: eligibility of the replay-optimized path at
execution time (spec section 4.2): capture must be enabled, the batch size
must not exceed the previously captured maximum, and no caller-provided
dynamic-shape input may defeat capture. -/
def graphCaptureEligible (p : GeneratorParams) (dynamicShapeInput : Bool) : Bool :=
  p.use_cuda_graph && decide (p.batch_size ≤ p.max_batch_size) && !dynamicShapeInput

/-- A captured graph: a recorded device-operation sequence replayed for
subsequent steps with identical shapes (spec glossary, "Graph capture"). -/
structure CapturedGraph where
  max_bs : Int
  recorded : List Int → List Int

/-- Recording captures the engine's device-operation sequence once. -/
def recordGraph (engine : List Int → List Int) (max_bs : Int) : CapturedGraph :=
  { max_bs := max_bs, recorded := engine }

/-- Replaying a captured graph runs the recorded operation sequence. -/
def replayGraph (g : CapturedGraph) (input : List Int) : List Int :=
  g.recorded input

/-- Modelled from the spec: one execution-engine step, taking the
replay-optimized path when eligible and the normal per-step path otherwise
(graph capture is a performance optimization, never a correctness
requirement). -/
def executeStep (engine : List Int → List Int) (p : GeneratorParams)
    (dynamicShapeInput : Bool) (input : List Int) : List Int :=
  if graphCaptureEligible p dynamicShapeInput then
    replayGraph (recordGraph engine p.max_batch_size) input
  else engine input

/-- C6: whenever the batch size exceeds the previously captured maximum (for
example captured maximum 4 and batch size 8), the replay-optimized path is
declined, execution still completes over the normal path (a total function:
no crash), and the produced output equals the uncaptured baseline —
as it also does in every other case. -/
theorem c6_graph_capture_fallback (engine : List Int → List Int)
    (p : GeneratorParams) (dynamicShapeInput : Bool) (input : List Int)
    (hb : p.max_batch_size < p.batch_size) :
    graphCaptureEligible p dynamicShapeInput = false ∧
    executeStep engine p dynamicShapeInput input = engine input := by
  have helig : graphCaptureEligible p dynamicShapeInput = false := by
    simp only [graphCaptureEligible, Bool.and_eq_false_iff]
    left
    right
    simpa using not_le.mpr hb
  refine ⟨helig, ?_⟩
  rcases hcase : graphCaptureEligible p dynamicShapeInput with _ | _
  · simp [executeStep, hcase]
  · simp [executeStep, hcase, replayGraph, recordGraph]

/-- C6 witness: graph capture requested with maximum batch size 4, then a
request with batch size 8: capture is declined and the output tokens equal
the uncaptured baseline. -/
theorem c6_graph_capture_fallback_witness :
    (({ batch_size := 8, is_cuda_graph_enabled_ := true : GeneratorParams}.TryGraphCapture 4).max_batch_size <
      ({ batch_size := 8, is_cuda_graph_enabled_ := true : GeneratorParams}.TryGraphCapture 4).batch_size) ∧
    (graphCaptureEligible
        ({ batch_size := 8, is_cuda_graph_enabled_ := true : GeneratorParams}.TryGraphCapture 4)
        false = false ∧
      executeStep (fun l => l ++ [42])
        ({ batch_size := 8, is_cuda_graph_enabled_ := true : GeneratorParams}.TryGraphCapture 4)
        false [1, 2] = (fun l => l ++ [42]) [1, 2]) := by
  refine ⟨by decide, ?_⟩
  exact c6_graph_capture_fallback (fun l => l ++ [42])
    ({ batch_size := 8, is_cuda_graph_enabled_ := true : GeneratorParams}.TryGraphCapture 4)
    false [1, 2] (by decide)

/-- Process-wide state around `OrtGlobals` (`src/generators.h` lines
173-196): whether the single globals instance is live (and its identity),
how many instances were ever constructed, whether `Shutdown` has been called,
and how many execution-engine calls have been issued.  `OrtGlobals` itself
has deleted copy constructor and copy assignment (lines 189-190), so the
modelled interface offers no operation that duplicates an instance. -/
structure OrtProcessState where
  globals : Option Nat
  created : Nat
  shut_down : Bool
  engine_calls : Nat
deriving DecidableEq

/-- The process state before any use of the runtime: no globals instance, no
construction, no shutdown, no engine call. -/
def ortStart : OrtProcessState :=
  { globals := none, created := 0, shut_down := false, engine_calls := 0 }

/-- Modelled from the spec: the body of `GetOrtGlobals` (declared at
`src/generators.h` line 193) is not under `src/`.  Spec section 3: a single
lazily-initialized process-wide handle — the first call constructs the one
instance, later calls return it, and after `Shutdown` no instance is handed
out (Ort code fails after that call, `src/generators.h` line 194). -/
def GetOrtGlobals (s : OrtProcessState) : OrtProcessState × Option Nat :=
  if s.shut_down then (s, none)
  else
    match s.globals with
    | some g => (s, some g)
    | none =>
      ({ s with globals := some s.created, created := s.created + 1 }, some s.created)

/-- Modelled from the spec: the body of `Shutdown` (declared at
`src/generators.h` line 194, "Do this once at exit, Ort code will fail after
this call") is not under `src/`.  It destroys the globals instance and marks
the process terminated. -/
def Shutdown (s : OrtProcessState) : OrtProcessState :=
  { s with globals := none, shut_down := true }

/-- Modelled from the spec: issuing one execution-engine call (spec section
7): the SessionTerminated condition is checked before the call is attempted;
only when the check passes is the engine actually invoked. -/
def issueEngineCall (s : OrtProcessState) : Except GenError OrtProcessState :=
  if s.shut_down then Except.error GenError.SessionTerminated
  else Except.ok { s with engine_calls := s.engine_calls + 1 }

/-- Attempt `n` engine calls in a row, collecting the errors surfaced; a
failed attempt leaves the state unchanged. -/
def attemptEngineCalls (s : OrtProcessState) : Nat → OrtProcessState × List GenError
  | 0 => (s, [])
  | n + 1 =>
    match issueEngineCall s with
    | Except.error e =>
      let rest := attemptEngineCalls s n
      (rest.1, e :: rest.2)
    | Except.ok s1 => attemptEngineCalls s1 n

theorem attemptEngineCalls_shut (s : OrtProcessState) (hs : s.shut_down = true) :
    ∀ n : Nat, attemptEngineCalls s n = (s, List.replicate n GenError.SessionTerminated) := by
  intro n
  induction n with
  | zero => simp [attemptEngineCalls]
  | succ n ih => simp [attemptEngineCalls, issueEngineCall, hs, ih, List.replicate]

/-- C7: after the explicit process-wide `Shutdown`, the very next
execution-engine call is rejected with SessionTerminated before being
attempted, and any number of further attempts all surface SessionTerminated
while the engine-call counter never moves past its pre-shutdown value — the
post-shutdown state is detected, never silently tolerated. -/
theorem c7_shutdown_terminates (s : OrtProcessState) (n : Nat) :
    issueEngineCall (Shutdown s) = Except.error GenError.SessionTerminated ∧
    attemptEngineCalls (Shutdown s) n =
      (Shutdown s, List.replicate n GenError.SessionTerminated) ∧
    (Shutdown s).engine_calls = s.engine_calls := by
  refine ⟨by simp [issueEngineCall, Shutdown], ?_, rfl⟩
  exact attemptEngineCalls_shut (Shutdown s) rfl n

/-- Process-level operations touching the globals singleton. -/
inductive OrtOp where
  | getGlobals
  | shutdown
deriving DecidableEq

/-- One process-level step. -/
def ortStep (s : OrtProcessState) : OrtOp → OrtProcessState
  | OrtOp.getGlobals => (GetOrtGlobals s).1
  | OrtOp.shutdown => Shutdown s

/-- Run a list of process-level operations from a state. -/
def runOrtOps (s : OrtProcessState) (ops : List OrtOp) : OrtProcessState :=
  ops.foldl ortStep s

theorem ortInvariant_preserved (s : OrtProcessState)
    (h1 : s.created ≤ 1) (h2 : s.globals = none ∨ s.globals = some 0)
    (h3 : s.shut_down = false → s.globals = none → s.created = 0) (op : OrtOp) :
    (ortStep s op).created ≤ 1 ∧
    ((ortStep s op).globals = none ∨ (ortStep s op).globals = some 0) ∧
    ((ortStep s op).shut_down = false → (ortStep s op).globals = none →
      (ortStep s op).created = 0) := by
  cases op with
  | shutdown => simp [ortStep, Shutdown, h1, h2]
  | getGlobals =>
    rcases hsd : s.shut_down with _ | _
    · rcases hg : s.globals with _ | g
      · have hc := h3 hsd hg
        simp [ortStep, GetOrtGlobals, hsd, hg, hc]
      · rcases h2 with h2 | h2
        · rw [hg] at h2; cases h2
        · rw [hg] at h2
          obtain rfl : g = 0 := by injection h2
          simp [ortStep, GetOrtGlobals, hsd, hg, h1]
    · simp [ortStep, GetOrtGlobals, hsd, h1, h2, hsd]

theorem runOrtOps_invariant (ops : List OrtOp) :
    ∀ s : OrtProcessState,
      s.created ≤ 1 → (s.globals = none ∨ s.globals = some 0) →
      (s.shut_down = false → s.globals = none → s.created = 0) →
      (runOrtOps s ops).created ≤ 1 ∧
      ((runOrtOps s ops).globals = none ∨ (runOrtOps s ops).globals = some 0) := by
  induction ops with
  | nil => intro s h1 h2 _; exact ⟨h1, h2⟩
  | cons op ops ih =>
    intro s h1 h2 h3
    obtain ⟨g1, g2, g3⟩ := ortInvariant_preserved s h1 h2 h3 op
    simpa [runOrtOps, List.foldl_cons] using ih (ortStep s op) g1 g2 g3

/-- C10: along every sequence of `GetOrtGlobals`/`Shutdown` operations from
process start, at most one `OrtGlobals` instance is ever constructed, and
whenever an instance is live it is the one instance of identity 0 — the
modelled interface (whose copy operations are deleted in the source) never
lets a second execution-environment handle exist. -/
theorem c10_ort_globals_singleton (ops : List OrtOp) :
    (runOrtOps ortStart ops).created ≤ 1 ∧
    ((runOrtOps ortStart ops).globals = none ∨
      (runOrtOps ortStart ops).globals = some 0) :=
  runOrtOps_invariant ops ortStart (by simp [ortStart]) (by simp [ortStart])
    (fun _ _ => rfl)

/-- The device-resident sequences of one generation request: one ordered
token list per batch/beam row (spec section 3, "Sequence"). -/
structure BatchState where
  rows : List (List Int)
deriving DecidableEq

/-- Modelled from the spec: per-row completion (spec section 4.3): a row is
done when it has emitted the configured end-of-sequence token or reached the
configured maximum length. -/
def rowDone (eos_token_id : Int) (max_length : Nat) (row : List Int) : Bool :=
  decide (eos_token_id ∈ row) || decide (max_length ≤ row.length)

/-- Modelled from the spec: the body of `Generator::IsDone` (declared at
`src/generators.h` line 161) is not under `src/`.  Spec section 4.3: true
when every row has emitted the end-of-sequence token or reached the maximum
length. -/
def IsDone (eos_token_id : Int) (max_length : Nat) (b : BatchState) : Bool :=
  b.rows.all (rowDone eos_token_id max_length)

/-- Modelled from the spec: one batch generation step — every row that is not
yet done receives the token the search policy selects for it; rows already
done are left alone, without blocking the others (spec section 4.3,
independent lifetimes within one batch). -/
def generateStepBatch (select : List Int → Int) (eos_token_id : Int)
    (max_length : Nat) (b : BatchState) : BatchState :=
  { rows := b.rows.map fun r =>
      if rowDone eos_token_id max_length r then r else r ++ [select r] }

theorem getD_map_rows (f : List Int → List Int) :
    ∀ (l : List (List Int)) (j : Nat), j < l.length →
      (l.map f).getD j [] = f (l.getD j []) := by
  intro l
  induction l with
  | nil => intro j h; simp at h
  | cons r rs ih =>
    intro j hj
    cases j with
    | zero => simp
    | succ i => simpa using ih i (by simpa using hj)

/-- C8: `IsDone` is true exactly when every row of the batch has emitted the
configured end-of-sequence token or reached the configured maximum length;
and when one row is done while another is not, the batch is not done, the
next step still extends the row that is not done with its selected token,
and leaves the done row untouched. -/
theorem c8_is_done (select : List Int → Int) (eos_token_id : Int)
    (max_length : Nat) (b : BatchState) (i j : Nat)
    (hi : i < b.rows.length) (hj : j < b.rows.length)
    (hdi : rowDone eos_token_id max_length (b.rows.getD i []) = true)
    (hdj : rowDone eos_token_id max_length (b.rows.getD j []) = false) :
    (IsDone eos_token_id max_length b = true ↔
      ∀ r ∈ b.rows, eos_token_id ∈ r ∨ max_length ≤ r.length) ∧
    IsDone eos_token_id max_length b = false ∧
    (generateStepBatch select eos_token_id max_length b).rows.getD j [] =
      b.rows.getD j [] ++ [select (b.rows.getD j [])] ∧
    (generateStepBatch select eos_token_id max_length b).rows.getD i [] =
      b.rows.getD i [] := by
  have hiff : IsDone eos_token_id max_length b = true ↔
      ∀ r ∈ b.rows, eos_token_id ∈ r ∨ max_length ≤ r.length := by
    simp [IsDone, rowDone, List.all_eq_true]
  refine ⟨hiff, ?_, ?_, ?_⟩
  · rcases hcase : IsDone eos_token_id max_length b with _ | _
    · rfl
    · exfalso
      have hall := hiff.mp hcase
      have hmem : b.rows.getD j [] ∈ b.rows := by
        rw [List.getD_eq_getElem b.rows [] hj]
        exact List.getElem_mem hj
      have := hall _ hmem
      rw [rowDone] at hdj
      simp only [Bool.or_eq_false_iff, decide_eq_false_iff_not] at hdj
      rcases this with h | h
      · exact absurd h hdj.1
      · exact absurd h hdj.2
  · rw [generateStepBatch]
    rw [getD_map_rows _ b.rows j hj, hdj]
    simp
  · rw [generateStepBatch]
    rw [getD_map_rows _ b.rows i hi, hdi]
    simp

/-- C8 witness: eos token 2, maximum length 5, row 0 = [7, 2] already done,
row 1 = [7, 7] not done: the batch is not done, the step extends row 1 with
the selected token 9 and leaves row 0 untouched. -/
theorem c8_is_done_witness :
    (0 : Nat) < (BatchState.mk [[7, 2], [7, 7]]).rows.length ∧
    (1 : Nat) < (BatchState.mk [[7, 2], [7, 7]]).rows.length ∧
    rowDone 2 5 ((BatchState.mk [[7, 2], [7, 7]]).rows.getD 0 []) = true ∧
    rowDone 2 5 ((BatchState.mk [[7, 2], [7, 7]]).rows.getD 1 []) = false ∧
    ((IsDone 2 5 (BatchState.mk [[7, 2], [7, 7]]) = true ↔
        ∀ r ∈ (BatchState.mk [[7, 2], [7, 7]]).rows, (2 : Int) ∈ r ∨ 5 ≤ r.length) ∧
      IsDone 2 5 (BatchState.mk [[7, 2], [7, 7]]) = false ∧
      (generateStepBatch (fun _ => 9) 2 5 (BatchState.mk [[7, 2], [7, 7]])).rows.getD 1 [] =
        (BatchState.mk [[7, 2], [7, 7]]).rows.getD 1 [] ++
          [(fun _ => (9 : Int)) ((BatchState.mk [[7, 2], [7, 7]]).rows.getD 1 [])] ∧
      (generateStepBatch (fun _ => 9) 2 5 (BatchState.mk [[7, 2], [7, 7]])).rows.getD 0 [] =
        (BatchState.mk [[7, 2], [7, 7]]).rows.getD 0 []) := by
  refine ⟨by decide, by decide, by decide, by decide, ?_⟩
  exact c8_is_done (fun _ => 9) 2 5 (BatchState.mk [[7, 2], [7, 7]]) 0 1
    (by decide) (by decide) (by decide) (by decide)

/-- `GeneratorParams::Clone` allocates the copy with `std::make_shared`
(`src/generators.h` line 68); allocation is modelled by appending the copy to
a store of live objects, returning the fresh object's index. -/
def cloneIntoStore (store : List GeneratorParams) (i : Nat) :
    List GeneratorParams × Nat :=
  (store ++ [(store.getD i default).Clone], store.length)

/-- What C9 asserts of a `Clone` call on object `i` of the store: the result
is a distinct object, the original is unchanged, and every field of the copy
equals the corresponding field of the original. -/
def CloneResultSpec (store : List GeneratorParams) (i : Nat) : Prop :=
  (cloneIntoStore store i).2 ≠ i ∧
  (cloneIntoStore store i).1.getD i default = store.getD i default ∧
  ((cloneIntoStore store i).1.getD (cloneIntoStore store i).2 default).search =
      (store.getD i default).search ∧
  ((cloneIntoStore store i).1.getD (cloneIntoStore store i).2 default).pad_token_id =
      (store.getD i default).pad_token_id ∧
  ((cloneIntoStore store i).1.getD (cloneIntoStore store i).2 default).eos_token_id =
      (store.getD i default).eos_token_id ∧
  ((cloneIntoStore store i).1.getD (cloneIntoStore store i).2 default).vocab_size =
      (store.getD i default).vocab_size ∧
  ((cloneIntoStore store i).1.getD (cloneIntoStore store i).2 default).context_length =
      (store.getD i default).context_length ∧
  ((cloneIntoStore store i).1.getD (cloneIntoStore store i).2 default).batch_size =
      (store.getD i default).batch_size ∧
  ((cloneIntoStore store i).1.getD (cloneIntoStore store i).2 default).max_batch_size =
      (store.getD i default).max_batch_size ∧
  ((cloneIntoStore store i).1.getD (cloneIntoStore store i).2 default).use_cuda_graph =
      (store.getD i default).use_cuda_graph ∧
  ((cloneIntoStore store i).1.getD (cloneIntoStore store i).2 default).sequence_length =
      (store.getD i default).sequence_length ∧
  ((cloneIntoStore store i).1.getD (cloneIntoStore store i).2 default).hidden_size =
      (store.getD i default).hidden_size ∧
  ((cloneIntoStore store i).1.getD (cloneIntoStore store i).2 default).device_type =
      (store.getD i default).device_type ∧
  ((cloneIntoStore store i).1.getD (cloneIntoStore store i).2 default).cuda_stream =
      (store.getD i default).cuda_stream ∧
  ((cloneIntoStore store i).1.getD (cloneIntoStore store i).2 default).input_ids =
      (store.getD i default).input_ids ∧
  ((cloneIntoStore store i).1.getD (cloneIntoStore store i).2 default).inputs =
      (store.getD i default).inputs ∧
  ((cloneIntoStore store i).1.getD (cloneIntoStore store i).2 default).input_ids_owner =
      (store.getD i default).input_ids_owner ∧
  ((cloneIntoStore store i).1.getD (cloneIntoStore store i).2 default).external_owner_ =
      (store.getD i default).external_owner_ ∧
  ((cloneIntoStore store i).1.getD (cloneIntoStore store i).2 default).extra_inputs =
      (store.getD i default).extra_inputs ∧
  ((cloneIntoStore store i).1.getD (cloneIntoStore store i).2 default).is_cuda_graph_enabled_ =
      (store.getD i default).is_cuda_graph_enabled_ ∧
  ((cloneIntoStore store i).1.getD (cloneIntoStore store i).2 default).config_ =
      (store.getD i default).config_

theorem getD_append_self (l : List GeneratorParams) (c : GeneratorParams) :
    (l ++ [c]).getD l.length default = c := by
  induction l with
  | nil => rfl
  | cons x xs ih => simp

theorem getD_append_left (l : List GeneratorParams) (c : GeneratorParams) :
    ∀ i : Nat, i < l.length → (l ++ [c]).getD i default = l.getD i default := by
  induction l with
  | nil => intro i h; simp at h
  | cons x xs ih =>
    intro i hi
    cases i with
    | zero => rfl
    | succ n => simpa using ih n (by simpa using hi)

/-- C9: for every live `GeneratorParams` object, `Clone` produces a distinct
fresh object whose search configuration, token-id and shape fields, device
type and stream, graph-capture flags, inputs, extra inputs and config pointer
all equal the original's, while the original object is left unchanged. -/
theorem c9_clone (store : List GeneratorParams) (i : Nat)
    (hi : i < store.length) : CloneResultSpec store i := by
  have hne : (cloneIntoStore store i).2 ≠ i := by
    simp only [cloneIntoStore]
    omega
  have hold : (cloneIntoStore store i).1.getD i default = store.getD i default := by
    simp only [cloneIntoStore]
    exact getD_append_left store _ i hi
  have hnew : (cloneIntoStore store i).1.getD (cloneIntoStore store i).2 default =
      (store.getD i default).Clone := by
    simp only [cloneIntoStore]
    exact getD_append_self store _
  refine ⟨hne, hold, ?_, ?_, ?_, ?_, ?_, ?_, ?_, ?_, ?_, ?_, ?_, ?_, ?_, ?_, ?_, ?_, ?_, ?_, ?_⟩ <;>
    rw [hnew] <;> rfl

/-- C9 witness: cloning the single object of a one-object store. -/
theorem c9_clone_witness :
    (0 : Nat) < ([{ batch_size := 3, device_type := DeviceType.CUDA : GeneratorParams }] :
        List GeneratorParams).length ∧
    CloneResultSpec [{ batch_size := 3, device_type := DeviceType.CUDA : GeneratorParams }] 0 :=
  ⟨by decide, c9_clone [{ batch_size := 3, device_type := DeviceType.CUDA : GeneratorParams }] 0
    (by decide)⟩

end Generators
